import Mathlib

/-!
Verification development for `dashboard/generate_html_dashboard.py`.

The file is a shallow embedding of the two halves of the script (the two sides
of its unresolved merge conflict): the interactive dashboard (fact-table
builder `load_data`, sidebar filter, KPI tiles, chart aggregations) and the
static HTML dashboard (KPI scalars and sentiment share series over a
pre-joined CSV with a `sentiment_label` column).

Modelling conventions:
- pandas DataFrames become `List` of row structures; nullable (joined) columns
  become `Option` fields; money and scores become `ℚ`.
- `order_purchase_timestamp` is modelled at the granularity the script uses:
  its year (`.dt.year`) and calendar month.  The period key produced by
  `.dt.to_period("M").astype(str)` ("YYYY-MM") is modelled as the pair
  (year, month), which has the same grouping behaviour and, ordered
  lexicographically, the same sort order as the zero-padded string.
- `merge(..., how="left")` becomes: for each left row, the list of matching
  right rows; an unmatched left row is kept with its `Option` fields `none`
  (pandas keeps it with NaNs); a NaN join key (modelled `none`) matches
  nothing, as in pandas.
- Series.sum / Series.mean skip nulls (pandas skipna), hence `Option.getD 0`
  and `List.filterMap` below; the mean of an empty selection is the junk
  value `0` (pandas would give NaN), which no claim's statement depends on.
-/

/-- Arithmetic mean of a list of rationals, the embedding of `Series.mean`
on the list of non-null values; the empty list gives `0/0 = 0`. -/
def listMean (l : List ℚ) : ℚ := l.sum / l.length

/-- Calendar-month key, the embedding of `.dt.to_period("M").astype(str)`:
the pair (year, month) stands for the string "YYYY-MM". -/
abbrev MonthKey := Int × Nat

/-- Row of `olist_orders_dataset.csv` restricted to the columns the script
loads (`order_id`, `customer_id`, `order_purchase_timestamp`); the parsed
timestamp is kept at month granularity. -/
structure OrderRow where
  order_id : String
  customer_id : String
  purchase_year : Int
  purchase_month : Nat
deriving DecidableEq

/-- Row of `olist_customers_dataset.csv` (loaded columns only). -/
structure CustomerRow where
  customer_id : String
  customer_state : String
  customer_city : String
deriving DecidableEq

/-- Row of `olist_sellers_dataset.csv` (loaded columns only). -/
structure SellerRow where
  seller_id : String
  seller_state : String
  seller_city : String
deriving DecidableEq

/-- Row of `olist_order_items_dataset.csv` (loaded columns only). -/
structure ItemRow where
  order_id : String
  order_item_id : Nat
  product_id : String
  seller_id : String
  price : ℚ
  freight_value : ℚ
deriving DecidableEq

/-- Row of `olist_order_payments_dataset.csv` (loaded columns only). -/
structure PaymentRow where
  order_id : String
  payment_value : ℚ
deriving DecidableEq

/-- Row of `olist_products_dataset.csv`; `product_category_name` is nullable
in the source data. -/
structure ProductRow where
  product_id : String
  product_category_name : Option String
deriving DecidableEq

/-- Row of `olist_order_reviews_dataset.csv` (loaded columns only). -/
structure ReviewRow where
  order_id : String
  review_score : ℚ
deriving DecidableEq

/-- Row of `product_category_name_translation.csv`. -/
structure TransRow where
  product_category_name : String
  product_category_name_english : String
deriving DecidableEq

/-- Row of the fact table built by `load_data` (lines 65-85).  Columns that
come from a left merge are `Option`s, `none` standing for NaN.  The derived
columns `order_year` / `order_month` (lines 77-78) start at junk defaults and
are written by `addTimeCols`. -/
structure FactRow where
  order_id : String
  customer_id : String
  purchase_year : Int
  purchase_month : Nat
  customer_state : Option String := none
  customer_city : Option String := none
  order_item_id : Option Nat := none
  product_id : Option String := none
  seller_id : Option String := none
  price : Option ℚ := none
  freight_value : Option ℚ := none
  product_category_name : Option String := none
  product_category_name_english : Option String := none
  seller_state : Option String := none
  seller_city : Option String := none
  payment_value : Option ℚ := none
  review_score : Option ℚ := none
  order_year : Int := 0
  order_month : MonthKey := (0, 0)
deriving DecidableEq

/-- The `orders` table lifted to fact rows: the starting frame of the merge
chain of line 65-74 (all joined columns still NaN/none). -/
def fromOrders (orders : List OrderRow) : List FactRow :=
  orders.map fun o =>
    { order_id := o.order_id, customer_id := o.customer_id,
      purchase_year := o.purchase_year, purchase_month := o.purchase_month }

/-- `.merge(customers, on="customer_id", how="left")` (line 67). -/
def mergeCustomers (df : List FactRow) (customers : List CustomerRow) : List FactRow :=
  df.flatMap fun r =>
    let ms := customers.filter fun c => c.customer_id == r.customer_id
    if ms.isEmpty then [r]
    else ms.map fun c =>
      { r with customer_state := some c.customer_state,
               customer_city := some c.customer_city }

/-- `.merge(items, on="order_id", how="left")` (line 68). -/
def mergeItems (df : List FactRow) (items : List ItemRow) : List FactRow :=
  df.flatMap fun r =>
    let ms := items.filter fun i => i.order_id == r.order_id
    if ms.isEmpty then [r]
    else ms.map fun i =>
      { r with order_item_id := some i.order_item_id, product_id := some i.product_id,
               seller_id := some i.seller_id, price := some i.price,
               freight_value := some i.freight_value }

/-- `.merge(products, on="product_id", how="left")` (line 69); a null join
key matches nothing, as in pandas. -/
def mergeProducts (df : List FactRow) (products : List ProductRow) : List FactRow :=
  df.flatMap fun r =>
    match r.product_id with
    | none => [r]
    | some pid =>
      let ms := products.filter fun p => p.product_id == pid
      if ms.isEmpty then [r]
      else ms.map fun p => { r with product_category_name := p.product_category_name }

/-- `.merge(trans, on="product_category_name", how="left")` (line 70). -/
def mergeTrans (df : List FactRow) (trans : List TransRow) : List FactRow :=
  df.flatMap fun r =>
    match r.product_category_name with
    | none => [r]
    | some cat =>
      let ms := trans.filter fun t => t.product_category_name == cat
      if ms.isEmpty then [r]
      else ms.map fun t =>
        { r with product_category_name_english := some t.product_category_name_english }

/-- `.merge(sellers, on="seller_id", how="left")` (line 71). -/
def mergeSellers (df : List FactRow) (sellers : List SellerRow) : List FactRow :=
  df.flatMap fun r =>
    match r.seller_id with
    | none => [r]
    | some sid =>
      let ms := sellers.filter fun s => s.seller_id == sid
      if ms.isEmpty then [r]
      else ms.map fun s =>
        { r with seller_state := some s.seller_state, seller_city := some s.seller_city }

/-- `groupby(key)[col].agg` producing one `(key, aggregate)` row per distinct
key, the shape shared by `pay_sum` and `rev_mean` (lines 61-62). -/
def groupAgg {α : Type} (l : List α) (key : α → String) (agg : List α → ℚ) :
    List (String × ℚ) :=
  ((l.map key).dedup).map fun k => (k, agg (l.filter fun x => key x == k))

/-- `payments.groupby("order_id", as_index=False)["payment_value"].sum()`
(line 61). -/
def pay_sum (payments : List PaymentRow) : List (String × ℚ) :=
  groupAgg payments (fun p => p.order_id) (fun g => (g.map fun p => p.payment_value).sum)

/-- `reviews.groupby("order_id", as_index=False)["review_score"].mean()`
(line 62). -/
def rev_mean (reviews : List ReviewRow) : List (String × ℚ) :=
  groupAgg reviews (fun v => v.order_id) (fun g => listMean (g.map fun v => v.review_score))

/-- `.merge(pay_sum, on="order_id", how="left")` (line 72). -/
def mergePaySum (df : List FactRow) (pays : List (String × ℚ)) : List FactRow :=
  df.flatMap fun r =>
    let ms := pays.filter fun p => p.1 == r.order_id
    if ms.isEmpty then [r]
    else ms.map fun p => { r with payment_value := some p.2 }

/-- `.merge(rev_mean, on="order_id", how="left")` (line 73). -/
def mergeRevMean (df : List FactRow) (revs : List (String × ℚ)) : List FactRow :=
  df.flatMap fun r =>
    let ms := revs.filter fun p => p.1 == r.order_id
    if ms.isEmpty then [r]
    else ms.map fun p => { r with review_score := some p.2 }

/-- Lines 77-78: the derived `order_year` and `order_month` columns. -/
def addTimeCols (df : List FactRow) : List FactRow :=
  df.map fun r =>
    { r with order_year := r.purchase_year,
             order_month := (r.purchase_year, r.purchase_month) }

/-- Per-row effect of `df["product_category_name_english"].fillna("Unknown")`
(lines 81-83). -/
def fillUnknownRow (r : FactRow) : FactRow :=
  { r with
    product_category_name_english := some (r.product_category_name_english.getD "Unknown") }

/-- Lines 81-83 applied to the whole frame. -/
def fillUnknown (df : List FactRow) : List FactRow := df.map fillUnknownRow

/-- The first five merges of lines 65-71 (everything before the pre-aggregated
payment and review tables are joined in). -/
def chainPreAgg (orders : List OrderRow) (customers : List CustomerRow)
    (sellers : List SellerRow) (items : List ItemRow) (products : List ProductRow)
    (trans : List TransRow) : List FactRow :=
  mergeSellers
    (mergeTrans
      (mergeProducts
        (mergeItems (mergeCustomers (fromOrders orders) customers) items)
        products)
      trans)
    sellers

/-- The fact table just before the `fillna("Unknown")` step: the merge chain
of lines 65-74 followed by the time columns of lines 77-78. -/
def factPreFill (orders : List OrderRow) (customers : List CustomerRow)
    (sellers : List SellerRow) (items : List ItemRow) (payments : List PaymentRow)
    (products : List ProductRow) (reviews : List ReviewRow) (trans : List TransRow) :
    List FactRow :=
  addTimeCols
    (mergeRevMean
      (mergePaySum (chainPreAgg orders customers sellers items products trans)
        (pay_sum payments))
      (rev_mean reviews))

/-- `load_data` (lines 17-85): the full fact-table builder. -/
def load_data (orders : List OrderRow) (customers : List CustomerRow)
    (sellers : List SellerRow) (items : List ItemRow) (payments : List PaymentRow)
    (products : List ProductRow) (reviews : List ReviewRow) (trans : List TransRow) :
    List FactRow :=
  fillUnknown (factPreFill orders customers sellers items payments products reviews trans)

/-- The sidebar filter state (lines 102-135): year-range slider, customer
state multiselect, category multiselect, payment-value range slider. -/
structure FilterSpec where
  year_lo : Int
  year_hi : Int
  states : List String
  categories : List String
  pay_lo : ℚ
  pay_hi : ℚ
deriving DecidableEq

/-- `Series.isin(l)` on a nullable column: a null value is never a member. -/
def optIsin (x : Option String) (l : List String) : Bool :=
  match x with
  | none => false
  | some s => l.contains s

/-- `Series.between(lo, hi)` (inclusive on both ends) on a nullable numeric
column: a null value never passes. -/
def optBetween (x : Option ℚ) (lo hi : ℚ) : Bool :=
  match x with
  | none => false
  | some v => decide (lo ≤ v) && decide (v ≤ hi)

/-- The conjunction of the four filter predicates of lines 139-144. -/
def rowPasses (fs : FilterSpec) (r : FactRow) : Bool :=
  (decide (fs.year_lo ≤ r.order_year) && decide (r.order_year ≤ fs.year_hi))
    && optIsin r.customer_state fs.states
    && optIsin r.product_category_name_english fs.categories
    && optBetween r.payment_value fs.pay_lo fs.pay_hi

/-- Lines 138-144: `filtered = df[...four predicates...]`. -/
def applyFilter (fs : FilterSpec) (df : List FactRow) : List FactRow :=
  df.filter (rowPasses fs)

/-- `filtered["order_id"].nunique()` (line 159). -/
def total_orders (rows : List FactRow) : Nat :=
  (rows.map fun r => r.order_id).dedup.length

/-- `filtered["payment_value"].sum()` (line 163); pandas sum skips nulls. -/
def total_revenue (rows : List FactRow) : ℚ :=
  (rows.map fun r => r.payment_value.getD 0).sum

/-- The distinct order ids of a frame, in first-occurrence order: the group
keys of `groupby("order_id")`. -/
def orderIds (rows : List FactRow) : List String :=
  (rows.map fun r => r.order_id).dedup

/-- The `payment_value` sum of one `groupby("order_id")` group (nulls skipped,
an all-null group summing to 0, as in pandas). -/
def orderPaySum (rows : List FactRow) (k : String) : ℚ :=
  ((rows.filter fun r => r.order_id == k).map fun r => r.payment_value.getD 0).sum

/-- `filtered.groupby("order_id")["payment_value"].sum().mean()` (line 167). -/
def avg_ticket (rows : List FactRow) : ℚ :=
  listMean ((orderIds rows).map (orderPaySum rows))

/-- `filtered["review_score"].mean()` (line 171); pandas mean skips nulls. -/
def avg_review (rows : List FactRow) : ℚ :=
  listMean (rows.filterMap fun r => r.review_score)

/-- `nunique` of a string column. -/
def countDistinct (l : List String) : Nat := l.dedup.length

/-- `filtered.groupby("customer_state")["customer_id"].nunique()`
(lines 182-186); pandas groupby drops null keys. -/
def cust_state_chart (rows : List FactRow) : List (String × Nat) :=
  ((rows.filterMap fun r => r.customer_state).dedup).map fun s =>
    (s, countDistinct ((rows.filter fun r => r.customer_state == some s).map
          fun r => r.customer_id))

/-- `filtered.groupby("seller_state")["seller_id"].nunique()` (lines 198-202). -/
def seller_state_chart (rows : List FactRow) : List (String × Nat) :=
  ((rows.filterMap fun r => r.seller_state).dedup).map fun s =>
    (s, countDistinct ((rows.filter fun r => r.seller_state == some s).filterMap
          fun r => r.seller_id))

/-- `filtered.groupby("product_category_name_english")["order_id"].nunique()`
sorted descending and truncated to 50 (lines 219-225). -/
def top_cat_chart (rows : List FactRow) : List (String × Nat) :=
  ((((rows.filterMap fun r => r.product_category_name_english).dedup).map fun c =>
      (c, countDistinct ((rows.filter
            fun r => r.product_category_name_english == some c).map
          fun r => r.order_id))).mergeSort fun a b => decide (b.2 ≤ a.2)).take 50

/-- Chronological (lexicographic month-key) order of the monthly series. -/
def monthLE (a b : MonthKey) : Bool :=
  decide (a.1 < b.1) || (decide (a.1 = b.1) && decide (a.2 ≤ b.2))

/-- `filtered.groupby("order_month")["order_id"].nunique()` sorted by month
(lines 239-244). -/
def monthly_chart (rows : List FactRow) : List (MonthKey × Nat) :=
  (((rows.map fun r => r.order_month).dedup).map fun m =>
      (m, countDistinct ((rows.filter fun r => r.order_month == m).map
          fun r => r.order_id))).mergeSort fun a b => monthLE a.1 b.1

/-- The triple group key of lines 567-568; pandas drops rows where any of the
three keys is null. -/
def sellerKey (r : FactRow) : Option (String × String × String) :=
  match r.seller_id, r.seller_state, r.seller_city with
  | some a, some b, some c => some (a, b, c)
  | _, _, _ => none

/-- `filtered.groupby(["seller_id","seller_state","seller_city"])["order_id"]
.nunique()` sorted descending and truncated to 100 (lines 567-573). -/
def top_sellers_chart (rows : List FactRow) : List ((String × String × String) × Nat) :=
  ((((rows.filterMap sellerKey).dedup).map fun k =>
      (k, countDistinct ((rows.filter fun r => sellerKey r == some k).map
          fun r => r.order_id))).mergeSort fun a b => decide (b.2 ≤ a.2)).take 100

/-- Everything the interactive page computes after the empty-frame guard:
the four KPI tiles and the five chart datasets. -/
structure Dashboard where
  kpi_total_orders : Nat
  kpi_total_revenue : ℚ
  kpi_avg_ticket : ℚ
  kpi_avg_review : ℚ
  chart_cust_state : List (String × Nat)
  chart_seller_state : List (String × Nat)
  chart_top_cat : List (String × Nat)
  chart_monthly : List (MonthKey × Nat)
  chart_top_sellers : List ((String × String × String) × Nat)
deriving DecidableEq

/-- Result of one interactive rendering pass: either the bare "no data"
notice (lines 147-149, `st.warning` followed by `st.stop`) or the full page. -/
inductive RenderOutput where
  | noData : RenderOutput
  | page : Dashboard → RenderOutput
deriving DecidableEq

/-- The interactive render cycle from line 138 on: apply the sidebar filter,
stop with the "no data" notice if the frame is empty, otherwise compute every
KPI and chart aggregate of the page. -/
def renderInteractive (df : List FactRow) (fs : FilterSpec) : RenderOutput :=
  let filtered := applyFilter fs df
  if filtered.isEmpty then RenderOutput.noData
  else RenderOutput.page
    { kpi_total_orders := total_orders filtered,
      kpi_total_revenue := total_revenue filtered,
      kpi_avg_ticket := avg_ticket filtered,
      kpi_avg_review := avg_review filtered,
      chart_cust_state := cust_state_chart filtered,
      chart_seller_state := seller_state_chart filtered,
      chart_top_cat := top_cat_chart filtered,
      chart_monthly := monthly_chart filtered,
      chart_top_sellers := top_sellers_chart filtered }

/-- Row of `fact_orders_with_sentiment.csv`, the pre-joined input of the
static branch (line 267), restricted to the columns that branch reads; the
timestamp again at the month granularity of `year_month` (lines 270-271). -/
structure StaticRow where
  order_id : String
  customer_state : String
  payment_value : ℚ
  freight_value : ℚ
  review_score : ℚ
  sentiment_label : String
  purchase_year : Int
  purchase_month : Nat
deriving DecidableEq

/-- The derived `year_month` column of line 271. -/
def year_month (r : StaticRow) : MonthKey := (r.purchase_year, r.purchase_month)

/-- `float(df["payment_value"].mean())` (line 279): the static branch's
"Avg Order Value" KPI, a mean over raw item rows. -/
def avg_order_value (df : List StaticRow) : ℚ :=
  listMean (df.map fun r => r.payment_value)

/-- `df.groupby(["year_month","sentiment_label"]).size()` (lines 319-323):
one count per (month, label) pair present in the data. -/
def sentCounts (df : List StaticRow) : List (MonthKey × String × Nat) :=
  ((df.map fun r => (year_month r, r.sentiment_label)).dedup).map fun p =>
    (p.1, p.2, (df.filter fun r => (year_month r, r.sentiment_label) == p).length)

/-- The denominator of the `transform(lambda x: x / x.sum())` of lines
324-326: the total count of the month's group. -/
def monthTotal (df : List StaticRow) (m : MonthKey) : ℚ :=
  (((sentCounts df).filter fun e => e.1 == m).map fun e => (e.2.2 : ℚ)).sum

/-- `sent_time` with its `share` column (lines 319-326). -/
def sent_time (df : List StaticRow) : List (MonthKey × String × ℚ) :=
  (sentCounts df).map fun e => (e.1, e.2.1, (e.2.2 : ℚ) / monthTotal df e.1)

/-- Written from the spec sentence "average order value = mean, over distinct
orders, of summed payment_value per order": the set of distinct order ids,
each contributing its per-order `payment_value` sum, averaged. -/
def specAOV (rows : List FactRow) : ℚ :=
  (∑ k ∈ (rows.map fun r => r.order_id).toFinset, orderPaySum rows k) /
    (((rows.map fun r => r.order_id).toFinset.card : ℚ))

/-- The same spec sentence read against the static branch's pre-joined frame:
mean over distinct order ids of the per-order `payment_value` sum. -/
def specAOVStatic (df : List StaticRow) : ℚ :=
  (∑ k ∈ (df.map fun r => r.order_id).toFinset,
      ((df.filter fun r => r.order_id == k).map fun r => r.payment_value).sum) /
    (((df.map fun r => r.order_id).toFinset.card : ℚ))

/-- The three unresolved git merge-conflict marker lines sitting at module
top level of `generate_html_dashboard.py`, verbatim with their line numbers
(lines 9, 255 and 560). -/
def conflictMarkerLines : List (Nat × String) :=
  [(9, "<<<<<<< HEAD"),
   (255, "======="),
   (560, ">>>>>>> 287053b (Add HTML dashboard)")]

/-- Recognizer for the three git conflict-marker shapes; none of these can
begin a Python statement, so a module containing one at top level fails to
parse (no statement may start with `<`, `=` or `>`). -/
def isConflictMarker (s : String) : Bool :=
  s.data.take 7 == "<<<<<<<".data || s.data.take 7 == "=======".data ||
    s.data.take 7 == ">>>>>>>".data

/-- Every name bound at the top level of the module: the five import aliases
of lines 3-7 followed by each top-level assignment target, in source order. -/
def moduleBoundNames : List String :=
  ["pd", "np", "st", "px", "Path",
   "BASE_DIR", "DATA_DIR", "load_data", "df",
   "years", "year_min", "year_max", "year_range",
   "state_options", "selected_states",
   "category_options", "selected_categories",
   "min_payment", "max_payment", "payment_range", "filtered",
   "col1", "col2", "col3", "col4",
   "total_orders", "total_revenue", "avg_ticket", "avg_review",
   "c1", "c2", "cust_state", "fig_cust", "seller_state", "fig_seller",
   "c3", "c4", "top_cat", "fig_cat", "monthly", "fig_month",
   "DASHBOARD_DIR", "DATA_PATH", "OUTPUT_HTML",
   "total_orders", "avg_order_value", "avg_freight",
   "sent_counts", "sent_pct", "pct_positive", "pct_neutral", "pct_negative",
   "XGB_RMSE", "XGB_MAE", "XGB_R2",
   "fig_revenue", "sent_time", "fig_sentiment_time",
   "state_rev", "fig_state_rev", "fig_freight_review",
   "fig_revenue_html", "fig_sentiment_time_html", "fig_state_rev_html",
   "fig_freight_review_html", "html_template", "top_sellers"]

/-- The module attribute under which the static branch calls `.to_html`
(lines 372-379): the name `pio`, conventionally `plotly.io`. -/
def staticFigureModule : String := "pio"

/-- The order-level payment total as a lookup: `none` when the order has no
payment rows, otherwise the sum of its `payment_value`s.  This is what a fact
row's `payment_value` ends up as after the line-72 merge. -/
def paySumFn (payments : List PaymentRow) (k : String) : Option ℚ :=
  let g := payments.filter fun p => p.order_id == k
  if g.isEmpty then none else some ((g.map fun p => p.payment_value).sum)

/-- The order-level review mean as a lookup, similarly for line 73. -/
def revMeanFn (reviews : List ReviewRow) (k : String) : Option ℚ :=
  let g := reviews.filter fun v => v.order_id == k
  if g.isEmpty then none else some (listMean (g.map fun v => v.review_score))

/-- The fields of a fact row that identify the order-item and carry its
measures: what the joins after `items` never touch. -/
def projKeep (r : FactRow) :
    String × String × Option Nat × Option String × Option String × Option ℚ × Option ℚ :=
  (r.order_id, r.customer_id, r.order_item_id, r.product_id, r.seller_id,
    r.price, r.freight_value)

/-- The order-level fields relevant to the broadcast invariant. -/
def projOPR (r : FactRow) : String × Option ℚ × Option ℚ :=
  (r.order_id, r.payment_value, r.review_score)

/-- One-row fact table used to exercise the empty-filter guard. -/
def exFactC3 : FactRow :=
  { order_id := "O1", customer_id := "C1", purchase_year := 2017, purchase_month := 5,
    customer_state := some "SP", product_category_name_english := some "toys",
    payment_value := some 50, order_year := 2017, order_month := (2017, 5) }

/-- A filter selecting no customer state at all, so no row can pass. -/
def exFilterC3 : FilterSpec :=
  { year_lo := 2016, year_hi := 2018, states := [], categories := ["toys"],
    pay_lo := 0, pay_hi := 100 }

/-- A one-order orders table. -/
def exOrderC5 : OrderRow :=
  { order_id := "O1", customer_id := "C1", purchase_year := 2017, purchase_month := 5 }

/-- Two item rows belonging to the same order. -/
def exItemsC5 : List ItemRow :=
  [{ order_id := "O1", order_item_id := 1, product_id := "P1", seller_id := "S1",
     price := 10, freight_value := 2 },
   { order_id := "O1", order_item_id := 2, product_id := "P2", seller_id := "S1",
     price := 5, freight_value := 1 }]

/-- First fact row produced by `load_data` on the two-item order. -/
def exFactC5a : FactRow :=
  { order_id := "O1", customer_id := "C1", purchase_year := 2017, purchase_month := 5,
    order_item_id := some 1, product_id := some "P1", seller_id := some "S1",
    price := some 10, freight_value := some 2,
    product_category_name_english := some "Unknown",
    order_year := 2017, order_month := (2017, 5) }

/-- Second fact row produced by `load_data` on the two-item order. -/
def exFactC5b : FactRow :=
  { order_id := "O1", customer_id := "C1", purchase_year := 2017, purchase_month := 5,
    order_item_id := some 2, product_id := some "P2", seller_id := some "S1",
    price := some 5, freight_value := some 1,
    product_category_name_english := some "Unknown",
    order_year := 2017, order_month := (2017, 5) }

/-- An item row whose `order_id` appears in no orders table. -/
def exItemC7 : ItemRow :=
  { order_id := "OX", order_item_id := 1, product_id := "P", seller_id := "S",
    price := 3, freight_value := 1 }

/-- An order matching `exItemC7b`. -/
def exOrderC7 : OrderRow :=
  { order_id := "O1", customer_id := "C1", purchase_year := 2017, purchase_month := 5 }

/-- An item row whose `order_id` does appear in the orders table. -/
def exItemC7b : ItemRow :=
  { order_id := "O1", order_item_id := 1, product_id := "P", seller_id := "S",
    price := 3, freight_value := 1 }

/-- Orders table for the category-defaulting example. -/
def exOrdersC8 : List OrderRow :=
  [{ order_id := "O2", customer_id := "C2", purchase_year := 2018, purchase_month := 1 }]

/-- Item referencing a product that is absent from the products table. -/
def exItemsC8 : List ItemRow :=
  [{ order_id := "O2", order_item_id := 1, product_id := "P9", seller_id := "S9",
     price := 7, freight_value := 3 }]

/-- The pre-`fillna` fact row for `exOrdersC8`/`exItemsC8` with every other
source table empty: its English category is still null. -/
def exPreRowC8 : FactRow :=
  { order_id := "O2", customer_id := "C2", purchase_year := 2018, purchase_month := 1,
    order_item_id := some 1, product_id := some "P9", seller_id := some "S9",
    price := some 7, freight_value := some 3,
    order_year := 2018, order_month := (2018, 1) }

/-- Static-frame row: first item row of a two-item order paying 17. -/
def exRowC1a : StaticRow :=
  { order_id := "O1", customer_state := "SP", payment_value := 17, freight_value := 2,
    review_score := 5, sentiment_label := "positive", purchase_year := 2017,
    purchase_month := 5 }

/-- Static-frame row: second item row of the same order, broadcasting 17. -/
def exRowC1b : StaticRow :=
  { order_id := "O1", customer_state := "SP", payment_value := 17, freight_value := 1,
    review_score := 5, sentiment_label := "positive", purchase_year := 2017,
    purchase_month := 5 }

/-- Static-frame row: a one-item order paying 20. -/
def exRowC1c : StaticRow :=
  { order_id := "O2", customer_state := "RJ", payment_value := 20, freight_value := 3,
    review_score := 4, sentiment_label := "neutral", purchase_year := 2017,
    purchase_month := 6 }

/-- A static frame in which order O1 has two item rows: raw-row mean 18,
distinct-order mean 27. -/
def exStaticC1 : List StaticRow := [exRowC1a, exRowC1b, exRowC1c]

/-- Filtered fact rows in which order O1 has two item rows (payment 17
broadcast) and O2 one row (payment 20). -/
def exRowsC9 : List FactRow :=
  [{ order_id := "O1", customer_id := "C1", purchase_year := 2017, purchase_month := 5,
     payment_value := some 17 },
   { order_id := "O1", customer_id := "C1", purchase_year := 2017, purchase_month := 5,
     payment_value := some 17 },
   { order_id := "O2", customer_id := "C2", purchase_year := 2017, purchase_month := 6,
     payment_value := some 20 }]

/-- Sentiment example row: a positive review in 2017-05. -/
def exRowC10a : StaticRow :=
  { order_id := "O1", customer_state := "SP", payment_value := 10, freight_value := 1,
    review_score := 5, sentiment_label := "positive", purchase_year := 2017,
    purchase_month := 5 }

/-- Sentiment example row: a negative review in the same month. -/
def exRowC10b : StaticRow :=
  { order_id := "O2", customer_state := "RJ", payment_value := 12, freight_value := 2,
    review_score := 1, sentiment_label := "negative", purchase_year := 2017,
    purchase_month := 5 }

/-- A two-row sentiment frame with both rows in month 2017-05. -/
def exStaticC10 : List StaticRow := [exRowC10a, exRowC10b]

theorem sum_map_div {α : Type} (l : List α) (f : α → ℚ) (c : ℚ) :
    (l.map fun x => f x / c).sum = (l.map f).sum / c := by
  induction l with
  | nil => simp
  | cons a t ih => simp [ih, add_div]

theorem sum_map_add {α : Type} (l : List α) (f g : α → ℚ) :
    (l.map fun x => f x + g x).sum = (l.map f).sum + (l.map g).sum := by
  induction l with
  | nil => simp
  | cons a t ih =>
    simp only [List.map_cons, List.sum_cons, ih]
    ring

theorem sum_if_single {K : Type} [DecidableEq K] (ks : List K) (c : K) (v : ℚ)
    (hnd : ks.Nodup) (hc : c ∈ ks) :
    (ks.map fun k => if c = k then v else 0).sum = v := by
  induction ks with
  | nil => simp at hc
  | cons a t ih =>
    rw [List.nodup_cons] at hnd
    rcases List.mem_cons.mp hc with h | h
    · subst h
      simp only [List.map_cons, List.sum_cons, if_pos rfl]
      have hz : (t.map fun k => if c = k then v else 0) = t.map fun _ => (0 : ℚ) := by
        apply List.map_congr_left
        intro x hx
        rw [if_neg]
        intro he
        exact hnd.1 (he ▸ hx)
      simp [hz]
    · have hne : c ≠ a := fun he => hnd.1 (he ▸ h)
      simp only [List.map_cons, List.sum_cons, if_neg hne, zero_add]
      exact ih hnd.2 h

theorem sum_fiber_aux {α K : Type} [DecidableEq K] (l : List α) (key : α → K) (f : α → ℚ) :
    ∀ ks : List K, ks.Nodup → (∀ x ∈ l, key x ∈ ks) →
      (ks.map fun k => ((l.filter fun x => key x == k).map f).sum).sum = (l.map f).sum := by
  induction l with
  | nil => intro ks _ _; simp
  | cons a t ih =>
    intro ks hnd hcov
    have hmap : (ks.map fun k => (((a :: t).filter fun x => key x == k).map f).sum) =
        ks.map fun k =>
          ((if key a = k then f a else 0) + ((t.filter fun x => key x == k).map f).sum) := by
      apply List.map_congr_left
      intro k _
      by_cases h : key a = k
      · simp [List.filter_cons, h]
      · simp [List.filter_cons, h]
    rw [hmap, sum_map_add,
      sum_if_single ks (key a) (f a) hnd (hcov a (List.mem_cons_self a t)),
      ih ks hnd (fun x hx => hcov x (List.mem_cons_of_mem a hx))]
    simp

/-- Summing a per-group aggregate of sums over all (deduplicated) group keys
gives back the total sum over the ungrouped rows: the generic shape behind the
`groupby(...).sum()` round-trip facts. -/
theorem sum_fiber {α K : Type} [DecidableEq K] (l : List α) (key : α → K) (f : α → ℚ) :
    (((l.map key).dedup).map fun k => ((l.filter fun x => key x == k).map f).sum).sum =
      (l.map f).sum :=
  sum_fiber_aux l key f _ (List.nodup_dedup _)
    (fun x hx => List.mem_dedup.mpr (List.mem_map_of_mem _ hx))

theorem nodup_filter_beq {K : Type} [DecidableEq K] (ks : List K) (k : K) (hnd : ks.Nodup) :
    ks.filter (fun x => x == k) = if k ∈ ks then [k] else [] := by
  induction ks with
  | nil => simp
  | cons a t ih =>
    rw [List.nodup_cons] at hnd
    by_cases hak : a = k
    · subst hak
      rw [List.filter_cons, if_pos (by simp), ih hnd.2, if_neg hnd.1,
        if_pos (List.mem_cons_self a t)]
    · rw [List.filter_cons, if_neg (by simp [hak]), ih hnd.2]
      by_cases hk : k ∈ t
      · rw [if_pos hk, if_pos (List.mem_cons_of_mem a hk)]
      · rw [if_neg hk, if_neg ?_]
        intro hmem
        rcases List.mem_cons.mp hmem with h | h
        · exact hak h.symm
        · exact hk h

/-- A `groupAgg` table has one row per distinct key: filtering it by a key
yields the empty list or the single aggregate row of that key. -/
theorem groupAgg_filter {α : Type} (l : List α) (key : α → String) (agg : List α → ℚ)
    (k : String) :
    (groupAgg l key agg).filter (fun p => p.1 == k) =
      if (l.filter fun x => key x == k).isEmpty then []
      else [(k, agg (l.filter fun x => key x == k))] := by
  rw [groupAgg, List.filter_map]
  have h1 : ((fun p : String × ℚ => p.1 == k) ∘
      fun k' => (k', agg (l.filter fun x => key x == k'))) = fun k' => k' == k := rfl
  rw [h1, nodup_filter_beq _ k (List.nodup_dedup _)]
  by_cases hk : k ∈ (l.map key).dedup
  · have hne : (l.filter fun x => key x == k).isEmpty = false := by
      rw [List.mem_dedup, List.mem_map] at hk
      obtain ⟨x, hx, hkey⟩ := hk
      cases hfe : (l.filter fun x => key x == k).isEmpty
      · rfl
      · exfalso
        rw [List.isEmpty_iff] at hfe
        have hxf : x ∈ l.filter fun x => key x == k :=
          List.mem_filter.mpr ⟨hx, by simp [hkey]⟩
        rw [hfe] at hxf
        exact absurd hxf (List.not_mem_nil x)
    simp [hk, hne]
  · have hemp : (l.filter fun x => key x == k).isEmpty = true := by
      rw [List.isEmpty_iff, List.filter_eq_nil_iff]
      intro x hx hkx
      apply hk
      rw [List.mem_dedup, List.mem_map]
      exact ⟨x, hx, by simpa using hkx⟩
    simp [hk, hemp]

theorem mergeCustomers_src (df : List FactRow) (cs : List CustomerRow) :
    ∀ r' ∈ mergeCustomers df cs, ∃ r ∈ df,
      projOPR r' = projOPR r ∧ projKeep r' = projKeep r := by
  intro r' h
  rw [mergeCustomers, List.mem_flatMap] at h
  obtain ⟨r, hr, hmem⟩ := h
  refine ⟨r, hr, ?_⟩
  by_cases he : (cs.filter fun c => c.customer_id == r.customer_id).isEmpty
  · rw [if_pos he] at hmem
    rw [List.mem_singleton] at hmem
    subst hmem; exact ⟨rfl, rfl⟩
  · rw [if_neg he, List.mem_map] at hmem
    obtain ⟨c, _, rfl⟩ := hmem
    exact ⟨rfl, rfl⟩

theorem mergeItems_src (df : List FactRow) (its : List ItemRow) :
    ∀ r' ∈ mergeItems df its, ∃ r ∈ df, projOPR r' = projOPR r := by
  intro r' h
  rw [mergeItems, List.mem_flatMap] at h
  obtain ⟨r, hr, hmem⟩ := h
  refine ⟨r, hr, ?_⟩
  by_cases he : (its.filter fun i => i.order_id == r.order_id).isEmpty
  · rw [if_pos he] at hmem
    rw [List.mem_singleton] at hmem
    subst hmem; rfl
  · rw [if_neg he, List.mem_map] at hmem
    obtain ⟨i, _, rfl⟩ := hmem
    rfl

theorem mergeProducts_src (df : List FactRow) (ps : List ProductRow) :
    ∀ r' ∈ mergeProducts df ps, ∃ r ∈ df,
      projOPR r' = projOPR r ∧ projKeep r' = projKeep r := by
  intro r' h
  rw [mergeProducts, List.mem_flatMap] at h
  obtain ⟨r, hr, hmem⟩ := h
  refine ⟨r, hr, ?_⟩
  cases hp : r.product_id with
  | none =>
    rw [hp] at hmem
    rw [List.mem_singleton] at hmem
    subst hmem; exact ⟨rfl, rfl⟩
  | some pid =>
    rw [hp] at hmem
    simp only at hmem
    by_cases he : (ps.filter fun p => p.product_id == pid).isEmpty
    · rw [if_pos he] at hmem
      rw [List.mem_singleton] at hmem
      subst hmem; exact ⟨rfl, rfl⟩
    · rw [if_neg he, List.mem_map] at hmem
      obtain ⟨p, _, rfl⟩ := hmem
      exact ⟨rfl, by simp [projKeep, hp]⟩

theorem mergeTrans_src (df : List FactRow) (ts : List TransRow) :
    ∀ r' ∈ mergeTrans df ts, ∃ r ∈ df,
      projOPR r' = projOPR r ∧ projKeep r' = projKeep r := by
  intro r' h
  rw [mergeTrans, List.mem_flatMap] at h
  obtain ⟨r, hr, hmem⟩ := h
  refine ⟨r, hr, ?_⟩
  cases hp : r.product_category_name with
  | none =>
    rw [hp] at hmem
    rw [List.mem_singleton] at hmem
    subst hmem; exact ⟨rfl, rfl⟩
  | some cat =>
    rw [hp] at hmem
    simp only at hmem
    by_cases he : (ts.filter fun t => t.product_category_name == cat).isEmpty
    · rw [if_pos he] at hmem
      rw [List.mem_singleton] at hmem
      subst hmem; exact ⟨rfl, rfl⟩
    · rw [if_neg he, List.mem_map] at hmem
      obtain ⟨t, _, rfl⟩ := hmem
      exact ⟨rfl, rfl⟩

theorem mergeSellers_src (df : List FactRow) (ss : List SellerRow) :
    ∀ r' ∈ mergeSellers df ss, ∃ r ∈ df,
      projOPR r' = projOPR r ∧ projKeep r' = projKeep r := by
  intro r' h
  rw [mergeSellers, List.mem_flatMap] at h
  obtain ⟨r, hr, hmem⟩ := h
  refine ⟨r, hr, ?_⟩
  cases hp : r.seller_id with
  | none =>
    rw [hp] at hmem
    rw [List.mem_singleton] at hmem
    subst hmem; exact ⟨rfl, rfl⟩
  | some sid =>
    rw [hp] at hmem
    simp only at hmem
    by_cases he : (ss.filter fun s => s.seller_id == sid).isEmpty
    · rw [if_pos he] at hmem
      rw [List.mem_singleton] at hmem
      subst hmem; exact ⟨rfl, rfl⟩
    · rw [if_neg he, List.mem_map] at hmem
      obtain ⟨s, _, rfl⟩ := hmem
      exact ⟨rfl, by simp [projKeep, hp]⟩

theorem opr_order_id {a b : FactRow} (h : projOPR a = projOPR b) :
    a.order_id = b.order_id :=
  congrArg Prod.fst h

theorem opr_pay {a b : FactRow} (h : projOPR a = projOPR b) :
    a.payment_value = b.payment_value :=
  congrArg (fun t => t.2.1) h

theorem opr_rev {a b : FactRow} (h : projOPR a = projOPR b) :
    a.review_score = b.review_score :=
  congrArg (fun t => t.2.2) h

/-- Before the payment and review merges, every row of the chain still has
null `payment_value` and `review_score` columns. -/
theorem chainPreAgg_opr_none (orders : List OrderRow) (cs : List CustomerRow)
    (ss : List SellerRow) (its : List ItemRow) (ps : List ProductRow) (ts : List TransRow) :
    ∀ r ∈ chainPreAgg orders cs ss its ps ts,
      r.payment_value = none ∧ r.review_score = none := by
  intro r h
  rw [chainPreAgg] at h
  obtain ⟨r4, h4, ho4, _⟩ := mergeSellers_src _ _ r h
  obtain ⟨r3, h3, ho3, _⟩ := mergeTrans_src _ _ r4 h4
  obtain ⟨r2, h2, ho2, _⟩ := mergeProducts_src _ _ r3 h3
  obtain ⟨r1, h1, ho1⟩ := mergeItems_src _ _ r2 h2
  obtain ⟨r0, h0, ho0, _⟩ := mergeCustomers_src _ _ r1 h1
  rw [fromOrders, List.mem_map] at h0
  obtain ⟨o, _, rfl⟩ := h0
  constructor
  · rw [opr_pay ho4, opr_pay ho3, opr_pay ho2, opr_pay ho1, opr_pay ho0]
  · rw [opr_rev ho4, opr_rev ho3, opr_rev ho2, opr_rev ho1, opr_rev ho0]

/-- After the line-72 merge against `pay_sum`, each row's `payment_value` is
exactly the order-level payment total of its own `order_id` (the groupby
output has unique keys, so the left merge is a lookup). -/
theorem mergePaySum_lookup (df : List FactRow) (payments : List PaymentRow)
    (hnone : ∀ r ∈ df, r.payment_value = none) :
    ∀ r' ∈ mergePaySum df (pay_sum payments),
      r'.payment_value = paySumFn payments r'.order_id ∧
      ∃ r ∈ df, r'.order_id = r.order_id ∧ r'.review_score = r.review_score := by
  intro r' h
  rw [mergePaySum, List.mem_flatMap] at h
  obtain ⟨r, hr, hmem⟩ := h
  rw [pay_sum,
    groupAgg_filter payments (fun p => p.order_id)
      (fun g => (g.map fun p => p.payment_value).sum) r.order_id] at hmem
  cases hfe : (payments.filter fun p => p.order_id == r.order_id).isEmpty with
  | true =>
    rw [hfe] at hmem
    simp only [List.isEmpty_nil, if_true, List.mem_singleton] at hmem
    subst hmem
    refine ⟨?_, r', hr, rfl, rfl⟩
    rw [hnone r' hr, paySumFn]
    simp [hfe]
  | false =>
    rw [hfe] at hmem
    simp only [Bool.false_eq_true, if_false, List.isEmpty_cons, List.map_cons,
      List.map_nil, List.mem_singleton] at hmem
    subst hmem
    refine ⟨?_, r, hr, rfl, rfl⟩
    rw [paySumFn]
    simp [hfe]

/-- Same shape for the line-73 merge against `rev_mean`. -/
theorem mergeRevMean_lookup (df : List FactRow) (reviews : List ReviewRow)
    (hnone : ∀ r ∈ df, r.review_score = none) :
    ∀ r' ∈ mergeRevMean df (rev_mean reviews),
      r'.review_score = revMeanFn reviews r'.order_id ∧
      ∃ r ∈ df, r'.order_id = r.order_id ∧ r'.payment_value = r.payment_value := by
  intro r' h
  rw [mergeRevMean, List.mem_flatMap] at h
  obtain ⟨r, hr, hmem⟩ := h
  rw [rev_mean,
    groupAgg_filter reviews (fun v => v.order_id)
      (fun g => listMean (g.map fun v => v.review_score)) r.order_id] at hmem
  cases hfe : (reviews.filter fun v => v.order_id == r.order_id).isEmpty with
  | true =>
    rw [hfe] at hmem
    simp only [List.isEmpty_nil, if_true, List.mem_singleton] at hmem
    subst hmem
    refine ⟨?_, r', hr, rfl, rfl⟩
    rw [hnone r' hr, revMeanFn]
    simp [hfe]
  | false =>
    rw [hfe] at hmem
    simp only [Bool.false_eq_true, if_false, List.isEmpty_cons, List.map_cons,
      List.map_nil, List.mem_singleton] at hmem
    subst hmem
    refine ⟨?_, r, hr, rfl, rfl⟩
    rw [revMeanFn]
    simp [hfe]

/-- Broadcast invariant of the finished fact table: each row's
`payment_value` and `review_score` are functions of its `order_id` alone. -/
theorem load_data_broadcast (orders : List OrderRow) (cs : List CustomerRow)
    (ss : List SellerRow) (its : List ItemRow) (pays : List PaymentRow)
    (ps : List ProductRow) (rvs : List ReviewRow) (ts : List TransRow) :
    ∀ r ∈ load_data orders cs ss its pays ps rvs ts,
      r.payment_value = paySumFn pays r.order_id ∧
      r.review_score = revMeanFn rvs r.order_id := by
  intro r h
  rw [load_data, fillUnknown, List.mem_map] at h
  obtain ⟨r1, h1, rfl⟩ := h
  rw [factPreFill, addTimeCols, List.mem_map] at h1
  obtain ⟨r2, h2, rfl⟩ := h1
  have hpaynone : ∀ x ∈ chainPreAgg orders cs ss its ps ts, x.payment_value = none :=
    fun x hx => (chainPreAgg_opr_none orders cs ss its ps ts x hx).1
  have hrevnone : ∀ x ∈ mergePaySum (chainPreAgg orders cs ss its ps ts) (pay_sum pays),
      x.review_score = none := by
    intro x hx
    obtain ⟨_, r0, hr0, _, hrv⟩ := mergePaySum_lookup _ pays hpaynone x hx
    rw [hrv]
    exact (chainPreAgg_opr_none orders cs ss its ps ts r0 hr0).2
  obtain ⟨hrev, rp, hrp, hoid, hpay⟩ := mergeRevMean_lookup _ rvs hrevnone r2 h2
  obtain ⟨hpay2, _, _, _, _⟩ := mergePaySum_lookup _ pays hpaynone rp hrp
  constructor
  · show r2.payment_value = paySumFn pays r2.order_id
    rw [hpay, hpay2, hoid]
  · exact hrev

theorem mergeCustomers_fwd (df : List FactRow) (cs : List CustomerRow) :
    ∀ r ∈ df, ∃ r' ∈ mergeCustomers df cs,
      r'.order_id = r.order_id ∧ r'.customer_id = r.customer_id := by
  intro r hr
  rw [mergeCustomers]
  by_cases he : (cs.filter fun c => c.customer_id == r.customer_id).isEmpty
  · refine ⟨r, List.mem_flatMap.mpr ⟨r, hr, ?_⟩, rfl, rfl⟩
    rw [if_pos he]
    exact List.mem_singleton_self r
  · have hne : (cs.filter fun c => c.customer_id == r.customer_id) ≠ [] :=
      fun hnil => he (by rw [hnil]; rfl)
    obtain ⟨c, hc⟩ := List.exists_mem_of_ne_nil _ hne
    refine ⟨{ r with customer_state := some c.customer_state,
                     customer_city := some c.customer_city },
      List.mem_flatMap.mpr ⟨r, hr, ?_⟩, rfl, rfl⟩
    rw [if_neg he]
    exact List.mem_map_of_mem _ hc

theorem mergeItems_fwd (df : List FactRow) (its : List ItemRow) :
    ∀ r ∈ df, ∃ r' ∈ mergeItems df its,
      r'.order_id = r.order_id ∧ r'.customer_id = r.customer_id := by
  intro r hr
  rw [mergeItems]
  by_cases he : (its.filter fun i => i.order_id == r.order_id).isEmpty
  · refine ⟨r, List.mem_flatMap.mpr ⟨r, hr, ?_⟩, rfl, rfl⟩
    rw [if_pos he]
    exact List.mem_singleton_self r
  · have hne : (its.filter fun i => i.order_id == r.order_id) ≠ [] :=
      fun hnil => he (by rw [hnil]; rfl)
    obtain ⟨i, hi⟩ := List.exists_mem_of_ne_nil _ hne
    refine ⟨{ r with order_item_id := some i.order_item_id, product_id := some i.product_id,
                     seller_id := some i.seller_id, price := some i.price,
                     freight_value := some i.freight_value },
      List.mem_flatMap.mpr ⟨r, hr, ?_⟩, rfl, rfl⟩
    rw [if_neg he]
    exact List.mem_map_of_mem _ hi

/-- When an item row's `order_id` matches a base row, the items merge emits a
row carrying exactly that item's columns. -/
theorem mergeItems_hit (df : List FactRow) (its : List ItemRow) :
    ∀ r ∈ df, ∀ i ∈ its, i.order_id = r.order_id →
      ∃ r' ∈ mergeItems df its,
        projKeep r' = (r.order_id, r.customer_id, some i.order_item_id, some i.product_id,
          some i.seller_id, some i.price, some i.freight_value) := by
  intro r hr i hi heq
  rw [mergeItems]
  have hmemf : i ∈ its.filter fun x => x.order_id == r.order_id :=
    List.mem_filter.mpr ⟨hi, by simp [heq]⟩
  have he : ¬ ((its.filter fun x => x.order_id == r.order_id).isEmpty = true) := by
    intro hfe
    rw [List.isEmpty_iff] at hfe
    rw [hfe] at hmemf
    exact absurd hmemf (List.not_mem_nil i)
  refine ⟨{ r with order_item_id := some i.order_item_id, product_id := some i.product_id,
                   seller_id := some i.seller_id, price := some i.price,
                   freight_value := some i.freight_value },
    List.mem_flatMap.mpr ⟨r, hr, ?_⟩, rfl⟩
  rw [if_neg he]
  exact List.mem_map_of_mem _ hmemf

theorem mergeProducts_fwd (df : List FactRow) (ps : List ProductRow) :
    ∀ r ∈ df, ∃ r' ∈ mergeProducts df ps, projKeep r' = projKeep r := by
  intro r hr
  rw [mergeProducts]
  cases hp : r.product_id with
  | none =>
    exact ⟨r, List.mem_flatMap.mpr ⟨r, hr, by rw [hp]; exact List.mem_singleton_self r⟩, rfl⟩
  | some pid =>
    by_cases he : (ps.filter fun p => p.product_id == pid).isEmpty
    · refine ⟨r, List.mem_flatMap.mpr ⟨r, hr, ?_⟩, rfl⟩
      rw [hp]
      simp only
      rw [if_pos he]
      exact List.mem_singleton_self r
    · have hne : (ps.filter fun p => p.product_id == pid) ≠ [] :=
        fun hnil => he (by rw [hnil]; rfl)
      obtain ⟨p, hpm⟩ := List.exists_mem_of_ne_nil _ hne
      refine ⟨{ r with product_category_name := p.product_category_name },
        List.mem_flatMap.mpr ⟨r, hr, ?_⟩, by simp [projKeep, hp]⟩
      rw [hp]
      simp only
      rw [if_neg he]
      exact List.mem_map_of_mem _ hpm

theorem mergeTrans_fwd (df : List FactRow) (ts : List TransRow) :
    ∀ r ∈ df, ∃ r' ∈ mergeTrans df ts, projKeep r' = projKeep r := by
  intro r hr
  rw [mergeTrans]
  cases hp : r.product_category_name with
  | none =>
    exact ⟨r, List.mem_flatMap.mpr ⟨r, hr, by rw [hp]; exact List.mem_singleton_self r⟩, rfl⟩
  | some cat =>
    by_cases he : (ts.filter fun t => t.product_category_name == cat).isEmpty
    · refine ⟨r, List.mem_flatMap.mpr ⟨r, hr, ?_⟩, rfl⟩
      rw [hp]
      simp only
      rw [if_pos he]
      exact List.mem_singleton_self r
    · have hne : (ts.filter fun t => t.product_category_name == cat) ≠ [] :=
        fun hnil => he (by rw [hnil]; rfl)
      obtain ⟨t, htm⟩ := List.exists_mem_of_ne_nil _ hne
      refine ⟨{ r with product_category_name_english := some t.product_category_name_english },
        List.mem_flatMap.mpr ⟨r, hr, ?_⟩, rfl⟩
      rw [hp]
      simp only
      rw [if_neg he]
      exact List.mem_map_of_mem _ htm

theorem mergeSellers_fwd (df : List FactRow) (ss : List SellerRow) :
    ∀ r ∈ df, ∃ r' ∈ mergeSellers df ss, projKeep r' = projKeep r := by
  intro r hr
  rw [mergeSellers]
  cases hp : r.seller_id with
  | none =>
    exact ⟨r, List.mem_flatMap.mpr ⟨r, hr, by rw [hp]; exact List.mem_singleton_self r⟩, rfl⟩
  | some sid =>
    by_cases he : (ss.filter fun s => s.seller_id == sid).isEmpty
    · refine ⟨r, List.mem_flatMap.mpr ⟨r, hr, ?_⟩, rfl⟩
      rw [hp]
      simp only
      rw [if_pos he]
      exact List.mem_singleton_self r
    · have hne : (ss.filter fun s => s.seller_id == sid) ≠ [] :=
        fun hnil => he (by rw [hnil]; rfl)
      obtain ⟨s, hsm⟩ := List.exists_mem_of_ne_nil _ hne
      refine ⟨{ r with seller_state := some s.seller_state, seller_city := some s.seller_city },
        List.mem_flatMap.mpr ⟨r, hr, ?_⟩, by simp [projKeep, hp]⟩
      rw [hp]
      simp only
      rw [if_neg he]
      exact List.mem_map_of_mem _ hsm

theorem mergePaySum_fwd (df : List FactRow) (pays : List (String × ℚ)) :
    ∀ r ∈ df, ∃ r' ∈ mergePaySum df pays, projKeep r' = projKeep r := by
  intro r hr
  rw [mergePaySum]
  by_cases he : (pays.filter fun p => p.1 == r.order_id).isEmpty
  · exact ⟨r, List.mem_flatMap.mpr ⟨r, hr, by rw [if_pos he]; exact List.mem_singleton_self r⟩,
      rfl⟩
  · have hne : (pays.filter fun p => p.1 == r.order_id) ≠ [] :=
      fun hnil => he (by rw [hnil]; rfl)
    obtain ⟨p, hpm⟩ := List.exists_mem_of_ne_nil _ hne
    refine ⟨{ r with payment_value := some p.2 },
      List.mem_flatMap.mpr ⟨r, hr, ?_⟩, rfl⟩
    rw [if_neg he]
    exact List.mem_map_of_mem _ hpm

theorem mergeRevMean_fwd (df : List FactRow) (revs : List (String × ℚ)) :
    ∀ r ∈ df, ∃ r' ∈ mergeRevMean df revs, projKeep r' = projKeep r := by
  intro r hr
  rw [mergeRevMean]
  by_cases he : (revs.filter fun p => p.1 == r.order_id).isEmpty
  · exact ⟨r, List.mem_flatMap.mpr ⟨r, hr, by rw [if_pos he]; exact List.mem_singleton_self r⟩,
      rfl⟩
  · have hne : (revs.filter fun p => p.1 == r.order_id) ≠ [] :=
      fun hnil => he (by rw [hnil]; rfl)
    obtain ⟨p, hpm⟩ := List.exists_mem_of_ne_nil _ hne
    refine ⟨{ r with review_score := some p.2 },
      List.mem_flatMap.mpr ⟨r, hr, ?_⟩, rfl⟩
    rw [if_neg he]
    exact List.mem_map_of_mem _ hpm

theorem addTimeCols_fwd (df : List FactRow) :
    ∀ r ∈ df, ∃ r' ∈ addTimeCols df, projKeep r' = projKeep r :=
  fun r hr => ⟨_, List.mem_map_of_mem _ hr, rfl⟩

theorem fillUnknown_fwd (df : List FactRow) :
    ∀ r ∈ df, ∃ r' ∈ fillUnknown df, projKeep r' = projKeep r :=
  fun r hr => ⟨_, List.mem_map_of_mem _ hr, rfl⟩

theorem optIsin_iff (x : Option String) (l : List String) :
    optIsin x l = true ↔ ∃ s, x = some s ∧ s ∈ l := by
  cases x with
  | none => simp [optIsin]
  | some s => simp [optIsin, List.elem_iff]

theorem optBetween_iff (x : Option ℚ) (lo hi : ℚ) :
    optBetween x lo hi = true ↔ ∃ v, x = some v ∧ lo ≤ v ∧ v ≤ hi := by
  cases x with
  | none => simp [optBetween]
  | some v => simp [optBetween]

/-- C4: a row is in the filtered subset exactly when it is a fact row that
satisfies, conjunctively, the inclusive year-range bound on `order_year`,
membership of `customer_state` in the selected states, membership of
`product_category_name_english` in the selected categories, and the inclusive
payment-range bound on `payment_value`. -/
theorem applyFilter_mem_iff (fs : FilterSpec) (df : List FactRow) (r : FactRow) :
    r ∈ applyFilter fs df ↔
      r ∈ df ∧
        (fs.year_lo ≤ r.order_year ∧ r.order_year ≤ fs.year_hi) ∧
        (∃ s, r.customer_state = some s ∧ s ∈ fs.states) ∧
        (∃ c, r.product_category_name_english = some c ∧ c ∈ fs.categories) ∧
        (∃ v, r.payment_value = some v ∧ fs.pay_lo ≤ v ∧ v ≤ fs.pay_hi) := by
  rw [applyFilter, List.mem_filter]
  constructor
  · rintro ⟨hmem, hpass⟩
    rw [rowPasses] at hpass
    simp only [Bool.and_eq_true, decide_eq_true_eq, optIsin_iff, optBetween_iff] at hpass
    exact ⟨hmem, ⟨hpass.1.1.1.1, hpass.1.1.1.2⟩, hpass.1.1.2, hpass.1.2, hpass.2⟩
  · rintro ⟨hmem, ⟨h1, h2⟩, h3, h4, h5⟩
    refine ⟨hmem, ?_⟩
    rw [rowPasses]
    simp only [Bool.and_eq_true, decide_eq_true_eq, optIsin_iff, optBetween_iff]
    exact ⟨⟨⟨⟨h1, h2⟩, h3⟩, h4⟩, h5⟩

/-- C3: whenever the filtered frame is empty, the interactive render pass
emits only the "no data" notice and stops; no KPI or chart aggregate of the
page is computed. -/
theorem emptyFilter_rendersNoData (df : List FactRow) (fs : FilterSpec)
    (h : (applyFilter fs df).isEmpty = true) :
    renderInteractive df fs = RenderOutput.noData := by
  rw [renderInteractive]
  simp [h]

theorem emptyFilter_rendersNoData_witness :
    renderInteractive [exFactC3] exFilterC3 = RenderOutput.noData :=
  emptyFilter_rendersNoData [exFactC3] exFilterC3 (by decide)

/-- C6: the per-order payment aggregation of line 61 is sum-preserving —
the order-level totals sum to the grand total of the payments table. -/
theorem pay_sum_total (payments : List PaymentRow) :
    ((pay_sum payments).map fun p => p.2).sum =
      (payments.map fun p => p.payment_value).sum := by
  rw [pay_sum, groupAgg, List.map_map]
  exact sum_fiber payments (fun p => p.order_id) (fun p => p.payment_value)

/-- C5: in the built fact table, any two rows of the same order carry
identical `payment_value` and identical `review_score`, because both columns
are pre-aggregated to order granularity before being joined. -/
theorem payment_review_broadcast (orders : List OrderRow) (cs : List CustomerRow)
    (ss : List SellerRow) (its : List ItemRow) (pays : List PaymentRow)
    (ps : List ProductRow) (rvs : List ReviewRow) (ts : List TransRow) :
    ∀ r1 ∈ load_data orders cs ss its pays ps rvs ts,
      ∀ r2 ∈ load_data orders cs ss its pays ps rvs ts,
        r1.order_id = r2.order_id →
          r1.payment_value = r2.payment_value ∧ r1.review_score = r2.review_score := by
  intro r1 h1 r2 h2 hoid
  obtain ⟨hp1, hv1⟩ := load_data_broadcast orders cs ss its pays ps rvs ts r1 h1
  obtain ⟨hp2, hv2⟩ := load_data_broadcast orders cs ss its pays ps rvs ts r2 h2
  rw [hp1, hp2, hv1, hv2, hoid]
  exact ⟨rfl, rfl⟩

theorem payment_review_broadcast_witness :
    exFactC5a.payment_value = exFactC5b.payment_value ∧
      exFactC5a.review_score = exFactC5b.review_score :=
  payment_review_broadcast [exOrderC5] [] [] exItemsC5 [] [] [] []
    exFactC5a (by decide) exFactC5b (by decide) (by decide)

/-- C8: downstream of the builder the English category is never null, and a
fact row whose source category was absent leaves the `fillna` step carrying
exactly the value "Unknown". -/
theorem category_never_null (orders : List OrderRow) (cs : List CustomerRow)
    (ss : List SellerRow) (its : List ItemRow) (pays : List PaymentRow)
    (ps : List ProductRow) (rvs : List ReviewRow) (ts : List TransRow) :
    (∀ r ∈ load_data orders cs ss its pays ps rvs ts,
        r.product_category_name_english.isSome = true) ∧
      (∀ r ∈ factPreFill orders cs ss its pays ps rvs ts,
          r.product_category_name_english = none →
            fillUnknownRow r ∈ load_data orders cs ss its pays ps rvs ts ∧
              (fillUnknownRow r).product_category_name_english = some "Unknown") := by
  constructor
  · intro r h
    rw [load_data, fillUnknown, List.mem_map] at h
    obtain ⟨r0, _, rfl⟩ := h
    rfl
  · intro r h hnone
    constructor
    · rw [load_data, fillUnknown]
      exact List.mem_map_of_mem _ h
    · simp [fillUnknownRow, hnone]

theorem category_never_null_witness :
    (fillUnknownRow exPreRowC8).product_category_name_english.isSome = true ∧
      (fillUnknownRow exPreRowC8 ∈ load_data exOrdersC8 [] [] exItemsC8 [] [] [] [] ∧
        (fillUnknownRow exPreRowC8).product_category_name_english = some "Unknown") :=
  ⟨(category_never_null exOrdersC8 [] [] exItemsC8 [] [] [] []).1
      (fillUnknownRow exPreRowC8) (by decide),
    (category_never_null exOrdersC8 [] [] exItemsC8 [] [] [] []).2 exPreRowC8
      (by decide) (by decide)⟩

/-- C2: the module's top level contains unresolved git merge-conflict marker
lines (so the interpreter rejects the file before any pipeline step runs —
no Python statement can begin with one of these markers), and the static
branch's figure-rendering calls reference the name `pio`, which is bound by
no import and no top-level assignment of the module. -/
theorem merge_conflict_unexecutable :
    conflictMarkerLines.all (fun p => isConflictMarker p.2) = true ∧
      conflictMarkerLines.length = 3 ∧
      moduleBoundNames.contains staticFigureModule = false := by
  refine ⟨?_, ?_, ?_⟩ <;> decide

theorem specAOVStatic_dedup (df : List StaticRow) :
    specAOVStatic df =
      (((df.map fun r => r.order_id).dedup).map fun k =>
          ((df.filter fun r => r.order_id == k).map fun r => r.payment_value).sum).sum /
        (((df.map fun r => r.order_id).dedup.length : ℚ)) := by
  rw [specAOVStatic]
  congr 1

/-- C1 (amended): the interactive "Average Order Value" KPI of line 167 is
exactly the spec's distinct-order mean — the mean, over distinct `order_id`
values of the filtered frame, of the per-order `payment_value` sum.  (The
static branch's `avg_order_value` of line 279 is instead the raw-row mean;
see the counterexample.) -/
theorem avg_ticket_is_distinct_order_mean (rows : List FactRow) :
    avg_ticket rows = specAOV rows := by
  rw [avg_ticket, listMean, specAOV, orderIds, List.length_map]
  congr 1

/-- C1 counterexample: on a static frame where order O1 has two item rows
(payment 17 broadcast to both) and O2 one row (payment 20), the static-mode
KPI `avg_order_value` gives the raw-row mean 18, not the distinct-order mean
27 demanded by the claim for both output modes. -/
theorem static_aov_not_distinct_order_mean :
    avg_order_value exStaticC1 ≠ specAOVStatic exStaticC1 := by
  have h1 : avg_order_value exStaticC1 = 18 := by
    rw [avg_order_value, listMean, exStaticC1]
    norm_num [exRowC1a, exRowC1b, exRowC1c]
  have h2 : specAOVStatic exStaticC1 = 27 := by
    rw [specAOVStatic_dedup]
    have hd : (exStaticC1.map fun r => r.order_id).dedup = ["O1", "O2"] := by decide
    have hf1 : exStaticC1.filter (fun r => r.order_id == "O1") = [exRowC1a, exRowC1b] := by
      decide
    have hf2 : exStaticC1.filter (fun r => r.order_id == "O2") = [exRowC1c] := by decide
    rw [hd]
    simp only [List.map_cons, List.map_nil, hf1, hf2, List.sum_cons, List.sum_nil,
      List.length_cons, List.length_nil]
    norm_num [exRowC1a, exRowC1b, exRowC1c]
  intro heq
  rw [h1, h2] at heq
  norm_num at heq

/-- C9: whenever payment values are non-negative and some order of the frame
has more than one item row, the distinct-order average order value is at most
the raw-row revenue total — the naive total's intentional overcount. -/
theorem avg_ticket_le_total_revenue (rows : List FactRow)
    (hpos : ∀ r ∈ rows, 0 ≤ r.payment_value.getD 0)
    (hmulti : ∃ k, 1 < (rows.filter fun r => r.order_id == k).length) :
    avg_ticket rows ≤ total_revenue rows := by
  have hsum : ((orderIds rows).map (orderPaySum rows)).sum = total_revenue rows := by
    rw [total_revenue, orderIds]
    exact sum_fiber rows (fun r => r.order_id) (fun r => r.payment_value.getD 0)
  have hlen : 1 ≤ (orderIds rows).length := by
    obtain ⟨k, hk⟩ := hmulti
    have hne : (rows.filter fun r => r.order_id == k) ≠ [] := by
      intro h0
      rw [h0] at hk
      simp at hk
    obtain ⟨r, hrf⟩ := List.exists_mem_of_ne_nil _ hne
    have hrmem : r ∈ rows := (List.mem_filter.mp hrf).1
    have hmemid : r.order_id ∈ orderIds rows := by
      rw [orderIds, List.mem_dedup]
      exact List.mem_map_of_mem _ hrmem
    exact List.length_pos.mpr (List.ne_nil_of_mem hmemid)
  have htot : 0 ≤ total_revenue rows := by
    rw [total_revenue]
    apply List.sum_nonneg
    intro x hx
    rw [List.mem_map] at hx
    obtain ⟨r, hr, rfl⟩ := hx
    exact hpos r hr
  rw [avg_ticket, listMean, List.length_map, hsum]
  apply div_le_self htot
  exact_mod_cast hlen

theorem avg_ticket_le_total_revenue_witness :
    avg_ticket exRowsC9 ≤ total_revenue exRowsC9 :=
  avg_ticket_le_total_revenue exRowsC9 (by decide) ⟨"O1", by decide⟩

/-- C10: in the sentiment variant, for every month actually present in the
frame, the shares that `sent_time` assigns to that month's sentiment labels
sum to exactly 1. -/
theorem sentiment_share_sums_to_one (df : List StaticRow) (m : MonthKey)
    (hm : ∃ r ∈ df, year_month r = m) :
    (((sent_time df).filter fun e => e.1 == m).map fun e => e.2.2).sum = 1 := by
  rw [sent_time, List.filter_map]
  have hpred : ((fun e : MonthKey × String × ℚ => e.1 == m) ∘
      fun e : MonthKey × String × Nat => (e.1, e.2.1, (e.2.2 : ℚ) / monthTotal df e.1)) =
      fun e : MonthKey × String × Nat => e.1 == m := rfl
  rw [hpred, List.map_map]
  have hLm : ∀ e ∈ (sentCounts df).filter fun e => e.1 == m, e.1 = m := by
    intro e he
    have h2 := (List.mem_filter.mp he).2
    simpa using h2
  have hcongr : ((sentCounts df).filter fun e => e.1 == m).map
        ((fun e : MonthKey × String × ℚ => e.2.2) ∘
          fun e : MonthKey × String × Nat => (e.1, e.2.1, (e.2.2 : ℚ) / monthTotal df e.1)) =
      ((sentCounts df).filter fun e => e.1 == m).map
        fun e => (e.2.2 : ℚ) / monthTotal df m := by
    apply List.map_congr_left
    intro e he
    simp only [Function.comp]
    rw [hLm e he]
  rw [hcongr, sum_map_div]
  have hT : ((((sentCounts df).filter fun e => e.1 == m).map fun e => (e.2.2 : ℚ)).sum) =
      monthTotal df m := rfl
  rw [hT]
  apply div_self
  obtain ⟨r, hr, hym⟩ := hm
  have hpair : (m, r.sentiment_label) ∈
      (df.map fun x => (year_month x, x.sentiment_label)).dedup := by
    rw [List.mem_dedup, List.mem_map]
    exact ⟨r, hr, by rw [hym]⟩
  have hentry : (m, r.sentiment_label,
      (df.filter fun x => (year_month x, x.sentiment_label) == (m, r.sentiment_label)).length) ∈
      sentCounts df := by
    rw [sentCounts]
    exact List.mem_map_of_mem _ hpair
  have hinL : (m, r.sentiment_label,
      (df.filter fun x => (year_month x, x.sentiment_label) == (m, r.sentiment_label)).length) ∈
      (sentCounts df).filter fun e => e.1 == m :=
    List.mem_filter.mpr ⟨hentry, by simp⟩
  have hcmem : ((df.filter fun x =>
      (year_month x, x.sentiment_label) == (m, r.sentiment_label)).length : ℚ) ∈
      ((sentCounts df).filter fun e => e.1 == m).map fun e => (e.2.2 : ℚ) :=
    List.mem_map_of_mem _ hinL
  have hge : ((df.filter fun x =>
      (year_month x, x.sentiment_label) == (m, r.sentiment_label)).length : ℚ) ≤
      monthTotal df m := by
    rw [← hT]
    apply List.single_le_sum _ _ hcmem
    intro x hx
    rw [List.mem_map] at hx
    obtain ⟨e, _, rfl⟩ := hx
    exact_mod_cast Nat.zero_le e.2.2
  have hrmem : r ∈ df.filter fun x =>
      (year_month x, x.sentiment_label) == (m, r.sentiment_label) :=
    List.mem_filter.mpr ⟨hr, by simp [hym]⟩
  have hpos : 0 < (df.filter fun x =>
      (year_month x, x.sentiment_label) == (m, r.sentiment_label)).length :=
    List.length_pos.mpr (List.ne_nil_of_mem hrmem)
  have h1le : (1 : ℚ) ≤ ((df.filter fun x =>
      (year_month x, x.sentiment_label) == (m, r.sentiment_label)).length : ℚ) := by
    exact_mod_cast hpos
  exact ne_of_gt (lt_of_lt_of_le zero_lt_one (le_trans h1le hge))

theorem sentiment_share_sums_to_one_witness :
    (((sent_time exStaticC10).filter fun e => e.1 == ((2017 : Int), 5)).map
        fun e => e.2.2).sum = 1 :=
  sentiment_share_sums_to_one exStaticC10 ((2017 : Int), 5)
    ⟨exRowC10a, by decide, by decide⟩

theorem keep_order_id {a b : FactRow} (h : projKeep a = projKeep b) :
    a.order_id = b.order_id :=
  congrArg (fun t => t.1) h

theorem keep_customer_id {a b : FactRow} (h : projKeep a = projKeep b) :
    a.customer_id = b.customer_id :=
  congrArg (fun t => t.2.1) h

/-- C7 (amended): the builder performs the fixed left-outer merge sequence of
lines 65-74; every orders row survives to the fact table, and every item row
whose `order_id` appears in the orders table is preserved with all its columns
(an item row referencing an absent `order_id` is dropped — see the
counterexample). -/
theorem join_preserves_rows (orders : List OrderRow) (cs : List CustomerRow)
    (ss : List SellerRow) (its : List ItemRow) (pays : List PaymentRow)
    (ps : List ProductRow) (rvs : List ReviewRow) (ts : List TransRow) :
    (∀ o ∈ orders, ∃ r ∈ load_data orders cs ss its pays ps rvs ts,
        r.order_id = o.order_id ∧ r.customer_id = o.customer_id) ∧
      (∀ i ∈ its, (∃ o ∈ orders, o.order_id = i.order_id) →
          ∃ r ∈ load_data orders cs ss its pays ps rvs ts,
            r.order_id = i.order_id ∧ r.order_item_id = some i.order_item_id ∧
              r.product_id = some i.product_id ∧ r.seller_id = some i.seller_id ∧
              r.price = some i.price ∧ r.freight_value = some i.freight_value) := by
  have postcomp : ∀ df1 : List FactRow, ∀ r ∈ df1,
      ∃ r' ∈ fillUnknown (addTimeCols (mergeRevMean (mergePaySum (mergeSellers (mergeTrans
          (mergeProducts df1 ps) ts) ss) (pay_sum pays)) (rev_mean rvs))),
        projKeep r' = projKeep r := by
    intro df1 r hr
    obtain ⟨r1, h1, e1⟩ := mergeProducts_fwd df1 ps r hr
    obtain ⟨r2, h2, e2⟩ := mergeTrans_fwd _ ts r1 h1
    obtain ⟨r3, h3, e3⟩ := mergeSellers_fwd _ ss r2 h2
    obtain ⟨r4, h4, e4⟩ := mergePaySum_fwd _ (pay_sum pays) r3 h3
    obtain ⟨r5, h5, e5⟩ := mergeRevMean_fwd _ (rev_mean rvs) r4 h4
    obtain ⟨r6, h6, e6⟩ := addTimeCols_fwd _ r5 h5
    obtain ⟨r7, h7, e7⟩ := fillUnknown_fwd _ r6 h6
    exact ⟨r7, h7, e7.trans (e6.trans (e5.trans (e4.trans (e3.trans (e2.trans e1)))))⟩
  constructor
  · intro o ho
    have hb : ({ order_id := o.order_id, customer_id := o.customer_id,
                 purchase_year := o.purchase_year,
                 purchase_month := o.purchase_month } : FactRow) ∈
        fromOrders orders := List.mem_map_of_mem _ ho
    obtain ⟨rc, hc, ec0, ec1⟩ := mergeCustomers_fwd _ cs _ hb
    obtain ⟨ri, hi2, ei0, ei1⟩ := mergeItems_fwd _ its rc hc
    obtain ⟨rf, hf, ef⟩ := postcomp _ ri hi2
    refine ⟨rf, hf, ?_, ?_⟩
    · exact (keep_order_id ef).trans (ei0.trans ec0)
    · exact (keep_customer_id ef).trans (ei1.trans ec1)
  · rintro i hi ⟨o, ho, hoi⟩
    have hb : ({ order_id := o.order_id, customer_id := o.customer_id,
                 purchase_year := o.purchase_year,
                 purchase_month := o.purchase_month } : FactRow) ∈
        fromOrders orders := List.mem_map_of_mem _ ho
    obtain ⟨rc, hc, ec0, _⟩ := mergeCustomers_fwd _ cs _ hb
    have hioc : i.order_id = rc.order_id := hoi.symm.trans ec0.symm
    obtain ⟨rI, hI, eI⟩ := mergeItems_hit _ its rc hc i hi hioc
    obtain ⟨rf, hf, ef⟩ := postcomp _ rI hI
    have hK := ef.trans eI
    refine ⟨rf, hf, ?_, ?_, ?_, ?_, ?_, ?_⟩
    · exact (congrArg (fun t => t.1) hK).trans hioc.symm
    · exact congrArg (fun t => t.2.2.1) hK
    · exact congrArg (fun t => t.2.2.2.1) hK
    · exact congrArg (fun t => t.2.2.2.2.1) hK
    · exact congrArg (fun t => t.2.2.2.2.2.1) hK
    · exact congrArg (fun t => t.2.2.2.2.2.2) hK

theorem join_preserves_rows_witness :
    ∃ r ∈ load_data [exOrderC7] [] [] [exItemC7b] [] [] [] [],
      r.order_id = exItemC7b.order_id ∧ r.order_item_id = some exItemC7b.order_item_id ∧
        r.product_id = some exItemC7b.product_id ∧ r.seller_id = some exItemC7b.seller_id ∧
        r.price = some exItemC7b.price ∧ r.freight_value = some exItemC7b.freight_value :=
  (join_preserves_rows [exOrderC7] [] [] [exItemC7b] [] [] [] []).2 exItemC7b
    (by decide) ⟨exOrderC7, by decide, by decide⟩

/-- C7 counterexample: an order-item row whose `order_id` matches no orders
row is dropped by the builder — the items table is non-empty, yet with an
empty orders table the fact table is empty, so the claim that every
order-item row is preserved fails as stated. -/
theorem item_without_order_dropped :
    load_data [] [] [] [exItemC7] [] [] [] [] = [] ∧ exItemC7 ∈ [exItemC7] :=
  ⟨rfl, List.mem_singleton_self exItemC7⟩
